import Mathlib

/-!
# CivicTrack — verification of the issue store, moderation logic and queries

Shallow embedding of the CivicTrack server core:
* `shared/schema.ts` — the `issues`, `issueFlags`, `issueVotes`,
  `issueStatusLogs` and `users` tables become Lean structures; the
  database is a `State` of lists of rows.
* `server/storage.ts` (source `src/unnamed/part_001`) — each method of
  `DatabaseStorage` becomes a pure function on `State`.
* `server/routes.ts` (source `src/unnamed/part_002`) — each route handler
  becomes a function returning an HTTP status code together with the new
  `State`.

Decimal latitude/longitude columns are modelled as rationals; the SQL
great-circle distance expression is modelled over the reals with
`Real.cos`, `Real.sin`, `Real.acos`.  Timestamps are naturals supplied by
the caller (`now`), and generated ids are supplied by the caller
(`newId`) — both stand for `defaultNow()` / `gen_random_uuid()`.
-/

namespace CivicTrack

/-- A row of the `issues` table (`shared/schema.ts`).  `status` is
nullable in the schema (no `.notNull()`), hence `Option String`. -/
structure Issue where
  id : String
  title : String
  description : String
  category : String
  status : Option String
  latitude : ℚ
  longitude : ℚ
  address : Option String
  photos : List String
  reporterId : Option String
  isAnonymous : Bool
  isHidden : Bool
  flagCount : Nat
  reportCount : Nat
  createdAt : Nat
  updatedAt : Nat
deriving DecidableEq, Repr

/-- A row of the `issue_flags` table. -/
structure Flag where
  issueId : String
  flaggerId : String
  reason : Option String
deriving DecidableEq, Repr

/-- A row of the `issue_votes` table. -/
structure Vote where
  issueId : String
  voterId : String
deriving DecidableEq, Repr

/-- A row of the `issue_status_logs` table; `oldStatus` is nullable
(the initial entry has no previous status). -/
structure StatusLog where
  issueId : String
  oldStatus : Option String
  newStatus : String
  changedBy : String
  notes : Option String
deriving DecidableEq, Repr

/-- A row of the `users` table (only the fields the routes read). -/
structure User where
  id : String
  isAdmin : Bool
  isBanned : Bool
deriving DecidableEq, Repr

/-- The database: one list of rows per table.  Inserts append at the
end; `SELECT ... WHERE id = ?` with a single destructured result is
`List.find?`. -/
structure State where
  users : List User
  issues : List Issue
  flags : List Flag
  votes : List Vote
  logs : List StatusLog
deriving Repr

/-- SQL `UPDATE issues SET ... WHERE cond`: rewrite every row satisfying
`cond` with `f`, leave the others alone. -/
def updWhere (rows : List Issue) (cond : Issue → Bool) (f : Issue → Issue) : List Issue :=
  rows.map (fun i => if cond i then f i else i)

/-! ## `DatabaseStorage` methods (`server/storage.ts`) -/

/-- Method `getUser`. -/
def getUser (s : State) (id : String) : Option User :=
  s.users.find? (fun u => u.id == id)

/-- Method `getIssue`. -/
def getIssue (s : State) (id : String) : Option Issue :=
  s.issues.find? (fun i => i.id == id)

/-- Method `hideIssue`: `UPDATE issues SET is_hidden = true WHERE id = ?`. -/
def hideIssue (s : State) (id : String) : State :=
  { s with issues := updWhere s.issues (fun i => i.id == id) (fun i => { i with isHidden := true }) }

/-- Method `incrementIssueReportCount`:
`UPDATE issues SET report_count = report_count + 1 WHERE id = ?`. -/
def incrementIssueReportCount (s : State) (id : String) : State :=
  { s with issues := updWhere s.issues (fun i => i.id == id) (fun i => { i with reportCount := i.reportCount + 1 }) }

/-- Method `incrementIssueFlagCount`: increment `flag_count`, then
`UPDATE issues SET is_hidden = true WHERE id = ? AND flag_count >= 5`
(the auto-hide re-checked on every increment). -/
def incrementIssueFlagCount (s : State) (issueId : String) : State :=
  let s₁ : State :=
    { s with issues := updWhere s.issues (fun i => i.id == issueId) (fun i => { i with flagCount := i.flagCount + 1 }) }
  { s₁ with issues := updWhere s₁.issues (fun i => i.id == issueId && decide (5 ≤ i.flagCount)) (fun i => { i with isHidden := true }) }

/-- Method `flagIssue`: insert the flag row, then bump the counter. -/
def flagIssue (s : State) (f : Flag) : State :=
  incrementIssueFlagCount { s with flags := s.flags ++ [f] } f.issueId

/-- Method `getUserFlaggedIssue`. -/
def getUserFlaggedIssue (s : State) (issueId userId : String) : Option Flag :=
  s.flags.find? (fun f => f.issueId == issueId && f.flaggerId == userId)

/-- Method `voteForIssue`: insert the vote row, then bump `report_count`. -/
def voteForIssue (s : State) (v : Vote) : State :=
  incrementIssueReportCount { s with votes := s.votes ++ [v] } v.issueId

/-- Method `getUserVoteForIssue`. -/
def getUserVoteForIssue (s : State) (issueId userId : String) : Option Vote :=
  s.votes.find? (fun v => v.issueId == issueId && v.voterId == userId)

/-- Method `createStatusLog`: append-only insert. -/
def createStatusLog (s : State) (l : StatusLog) : State :=
  { s with logs := s.logs ++ [l] }

/-- The `UPDATE issues SET status = ?, updated_at = now() WHERE id = ?`
step of `updateIssueStatus`. -/
def setStatusRows (s : State) (id status : String) (now : Nat) : State :=
  { s with issues := updWhere s.issues (fun i => i.id == id) (fun i => { i with status := some status, updatedAt := now }) }

/-- Method `updateIssueStatus`: read the current issue (`undefined` → `none`),
update `status` and `updatedAt`, and append a status-log entry whose
`oldStatus` is the status read before the update. -/
def updateIssueStatus (s : State) (id status changedBy : String) (notes : Option String) (now : Nat) :
    Option Issue × State :=
  match getIssue s id with
  | none => (none, s)
  | some current =>
    match getIssue (setStatusRows s id status now) id with
    | none => (none, setStatusRows s id status now)
    | some updated =>
      (some updated,
        createStatusLog (setStatusRows s id status now)
          { issueId := id, oldStatus := current.status, newStatus := status, changedBy := changedBy, notes := notes })

/-- Method `getFlaggedIssues`:
`SELECT * FROM issues WHERE flag_count >= 1 ORDER BY flag_count DESC`. -/
def getFlaggedIssues (s : State) : List Issue :=
  (s.issues.filter (fun i => decide (1 ≤ i.flagCount))).mergeSort
    (fun a b => decide (b.flagCount ≤ a.flagCount))

/-- Method `banUser`. -/
def banUser (s : State) (userId : String) : State :=
  { s with users := s.users.map (fun u => if u.id == userId then { u with isBanned := true } else u) }

/-- Method `unbanUser`. -/
def unbanUser (s : State) (userId : String) : State :=
  { s with users := s.users.map (fun u => if u.id == userId then { u with isBanned := false } else u) }

/-! ## The proximity query -/

/-- SQL `radians(d)`: degrees to radians. -/
noncomputable def radians (d : ℚ) : ℝ := (d : ℝ) * Real.pi / 180

/-- The SQL distance expression of `getIssuesNearLocation`:
`6371 * acos( cos(radians(lat)) * cos(radians(i.lat)) *
cos(radians(i.lng) - radians(lng)) + sin(radians(lat)) * sin(radians(i.lat)) )`. -/
noncomputable def distanceKm (latitude longitude : ℚ) (i : Issue) : ℝ :=
  6371 * Real.arccos
    (Real.cos (radians latitude) * Real.cos (radians i.latitude) *
       Real.cos (radians i.longitude - radians longitude) +
     Real.sin (radians latitude) * Real.sin (radians i.latitude))

/-- The row filter of `getIssuesNearLocation`: within the radius, not
hidden, and matching the optional category and status filters. -/
noncomputable def nearFilter (latitude longitude radiusKm : ℚ)
    (category status : Option String) (i : Issue) : Bool :=
  decide (distanceKm latitude longitude i ≤ (radiusKm : ℝ)) &&
  i.isHidden == false &&
  (match category with | some c => i.category == c | none => true) &&
  (match status with | some st => i.status == some st | none => true)

/-- Method `getIssuesNearLocation`: filter, `ORDER BY created_at DESC`, then
`LIMIT lim OFFSET off` (offset skipped first, then the limit taken). -/
noncomputable def getIssuesNearLocation (s : State) (latitude longitude radiusKm : ℚ)
    (category status : Option String) (lim off : Nat) : List Issue :=
  (((s.issues.filter (nearFilter latitude longitude radiusKm category status)).mergeSort
      (fun a b => decide (b.createdAt ≤ a.createdAt))).drop off).take lim

/-- Result record of `getIssueAnalytics`. -/
structure Analytics where
  totalIssues : Nat
  issuesByCategory : List (String × Nat)
  issuesByStatus : List (String × Nat)
deriving DecidableEq, Repr

/-- Method `getIssueAnalytics`: all three aggregates range over
`WHERE is_hidden = false`; `GROUP BY category` keeps every category,
while the `issuesByStatus` record drops groups whose status is falsy in
JS (`if (stat.status)`): `NULL` and the empty string. -/
def getIssueAnalytics (s : State) : Analytics :=
  let visible := s.issues.filter (fun i => i.isHidden == false)
  { totalIssues := visible.length
    issuesByCategory :=
      (visible.map Issue.category).dedup.map
        (fun c => (c, (visible.filter (fun i => i.category == c)).length))
    issuesByStatus :=
      ((visible.filterMap Issue.status).dedup.filter (fun st => !(st == ""))).map
        (fun st => (st, (visible.filter (fun i => i.status == some st)).length)) }

/-! ## Route handlers (`server/routes.ts`)

Each handler returns the HTTP status code it answers with, together
with the state after the request.  Authentication has already
happened (`isAuthenticated`): `userId` is the caller. -/

/-- The body of `POST /api/issues` after Zod validation with
`insertIssueSchema`, which omits `id`, `createdAt`, `updatedAt`,
`flagCount`, `reportCount` and `isHidden` — but NOT `status` or
`address`, which therefore pass through from the client when supplied
(`status = none` means the field was omitted, so the column default
`"reported"` applies). -/
structure CreateRequest where
  title : String
  description : String
  category : String
  status : Option String
  latitude : ℚ
  longitude : ℚ
  address : Option String
deriving DecidableEq, Repr

/-- Route `POST /api/issues`: reject banned users with 403, insert the issue
with the column defaults for the omitted fields, and append the initial
status-log entry (`oldStatus = null`, `newStatus = "reported"`). -/
def createIssueRoute (s : State) (userId : String) (req : CreateRequest)
    (photos : List String) (isAnonymous : Bool) (newId : String) (now : Nat) :
    Nat × Option Issue × State :=
  if ((getUser s userId).map User.isBanned).getD false then (403, none, s)
  else
    let issue : Issue :=
      { id := newId
        title := req.title
        description := req.description
        category := req.category
        status := some (req.status.getD "reported")
        latitude := req.latitude
        longitude := req.longitude
        address := req.address
        photos := photos
        reporterId := if isAnonymous then none else some userId
        isAnonymous := isAnonymous
        isHidden := false
        flagCount := 0
        reportCount := 1
        createdAt := now
        updatedAt := now }
    let s₁ : State := { s with issues := s.issues ++ [issue] }
    let s₂ := createStatusLog s₁
      { issueId := newId, oldStatus := none, newStatus := "reported",
        changedBy := userId, notes := some "Issue reported" }
    (201, some issue, s₂)

/-- Route `POST /api/issues/:id/flag`: 400 if this user already flagged this
issue, otherwise insert the flag and bump the counter. -/
def flagIssueRoute (s : State) (issueId userId : String) (reason : Option String) :
    Nat × State :=
  match getUserFlaggedIssue s issueId userId with
  | some _ => (400, s)
  | none => (201, flagIssue s { issueId := issueId, flaggerId := userId, reason := reason })

/-- Route `POST /api/issues/:id/vote`: 400 if this user already voted for this
issue, otherwise insert the vote and bump `report_count`. -/
def voteIssueRoute (s : State) (issueId userId : String) : Nat × State :=
  match getUserVoteForIssue s issueId userId with
  | some _ => (400, s)
  | none => (201, voteForIssue s { issueId := issueId, voterId := userId })

/-- Route `PATCH /api/admin/issues/:id/status`: 403 unless the caller is an
admin, 404 when the issue does not exist; no validity check at all on
the requested status value. -/
def updateStatusRoute (s : State) (userId issueId status : String)
    (notes : Option String) (now : Nat) : Nat × State :=
  if ((getUser s userId).map User.isAdmin).getD false then
    let r := updateIssueStatus s issueId status userId notes now
    (if r.1.isSome then 200 else 404, r.2)
  else (403, s)

/-- Route `PATCH /api/admin/issues/:id/hide`. -/
def hideIssueRoute (s : State) (userId issueId : String) : Nat × State :=
  if ((getUser s userId).map User.isAdmin).getD false then (200, hideIssue s issueId)
  else (403, s)

/-- Route `PATCH /api/admin/users/:id/ban`. -/
def banUserRoute (s : State) (userId targetId : String) : Nat × State :=
  if ((getUser s userId).map User.isAdmin).getD false then (200, banUser s targetId)
  else (403, s)

/-- Route `PATCH /api/admin/users/:id/unban`. -/
def unbanUserRoute (s : State) (userId targetId : String) : Nat × State :=
  if ((getUser s userId).map User.isAdmin).getD false then (200, unbanUser s targetId)
  else (403, s)

/-! ## All state-changing operations, as one step type -/

/-- Every route that can change the database. -/
inductive Op where
  | create (userId : String) (req : CreateRequest) (photos : List String)
      (isAnonymous : Bool) (newId : String) (now : Nat)
  | flag (issueId userId : String) (reason : Option String)
  | vote (issueId userId : String)
  | setStatus (userId issueId status : String) (notes : Option String) (now : Nat)
  | hide (userId issueId : String)
  | ban (userId targetId : String)
  | unban (userId targetId : String)

/-- The state after one request. -/
def applyOp (s : State) : Op → State
  | .create userId req photos anon newId now =>
      (createIssueRoute s userId req photos anon newId now).2.2
  | .flag issueId userId reason => (flagIssueRoute s issueId userId reason).2
  | .vote issueId userId => (voteIssueRoute s issueId userId).2
  | .setStatus userId issueId status notes now =>
      (updateStatusRoute s userId issueId status notes now).2
  | .hide userId issueId => (hideIssueRoute s userId issueId).2
  | .ban userId targetId => (banUserRoute s userId targetId).2
  | .unban userId targetId => (unbanUserRoute s userId targetId).2

/-! ## Helper lemmas -/

@[simp] theorem issues_createStatusLog (s : State) (l : StatusLog) :
    (createStatusLog s l).issues = s.issues := rfl

@[simp] theorem logs_createStatusLog (s : State) (l : StatusLog) :
    (createStatusLog s l).logs = s.logs ++ [l] := rfl

@[simp] theorem flags_createStatusLog (s : State) (l : StatusLog) :
    (createStatusLog s l).flags = s.flags := rfl

@[simp] theorem votes_createStatusLog (s : State) (l : StatusLog) :
    (createStatusLog s l).votes = s.votes := rfl

@[simp] theorem users_createStatusLog (s : State) (l : StatusLog) :
    (createStatusLog s l).users = s.users := rfl

/-- Every row of an `UPDATE` result comes from a row of the input,
rewritten when the condition selected it. -/
theorem mem_updWhere {i' : Issue} {rows : List Issue} {cond : Issue → Bool}
    {f : Issue → Issue} (h : i' ∈ updWhere rows cond f) :
    ∃ i ∈ rows, i' = if cond i then f i else i := by
  obtain ⟨i, hi, rfl⟩ := List.mem_map.1 h
  exact ⟨i, hi, rfl⟩

/-- Looking an id up after an `UPDATE` whose rewrite keeps ids intact
finds the (possibly rewritten) row the lookup found before. -/
theorem find?_id_updWhere (rows : List Issue) (cond : Issue → Bool) (f : Issue → Issue)
    (hf : ∀ i, (f i).id = i.id) (j : String) :
    (updWhere rows cond f).find? (fun i => i.id == j) =
      (rows.find? (fun i => i.id == j)).map (fun i => if cond i then f i else i) := by
  unfold updWhere
  rw [List.find?_map]
  have hpg : ((fun i => i.id == j) ∘ fun i => if cond i then f i else i) =
      (fun i => i.id == j) := by
    funext i
    by_cases h : cond i <;> simp [h, hf]
  rw [hpg]

/-! ## The auto-hide invariant (claim C1) -/

/-- Whenever an issue's flag count has reached 5, it is hidden. -/
def InvHide (s : State) : Prop :=
  ∀ i ∈ s.issues, 5 ≤ i.flagCount → i.isHidden = true

/-- The `is_hidden` column of the issue an id lookup finds. -/
def hiddenOf (s : State) (id : String) : Option Bool :=
  (getIssue s id).map Issue.isHidden

theorem invHide_updWhere {s : State} {cond : Issue → Bool} {f : Issue → Issue}
    (hkeep : ∀ i, (f i).flagCount = i.flagCount ∧ (f i).isHidden = i.isHidden)
    (h : InvHide s) :
    InvHide { s with issues := updWhere s.issues cond f } := by
  intro i' hi' hfc
  obtain ⟨i, hi, rfl⟩ := mem_updWhere hi'
  by_cases hc : cond i = true
  · rw [if_pos hc] at hfc ⊢
    rw [(hkeep i).1] at hfc
    rw [(hkeep i).2]
    exact h i hi hfc
  · rw [if_neg hc] at hfc ⊢
    exact h i hi hfc

theorem invHide_incrementIssueFlagCount {s : State} (id : String) (h : InvHide s) :
    InvHide (incrementIssueFlagCount s id) := by
  intro i' hi' hfc
  simp only [incrementIssueFlagCount, updWhere, List.map_map, List.mem_map] at hi'
  obtain ⟨i, hi, rfl⟩ := hi'
  have hinv := h i hi
  simp only [Function.comp_apply] at hfc ⊢
  by_cases hid : (i.id == id) = true
  · by_cases h5 : 5 ≤ i.flagCount + 1
    · simp [hid, h5]
    · rw [if_pos hid] at hfc
      rw [if_neg (by simp [Bool.and_eq_true, h5])] at hfc
      exact absurd hfc h5
  · rw [if_neg hid] at hfc ⊢
    rw [if_neg (by simp [Bool.and_eq_true, hid])] at hfc ⊢
    exact hinv hfc

theorem invHide_flagIssue {s : State} (f : Flag) (h : InvHide s) :
    InvHide (flagIssue s f) :=
  invHide_incrementIssueFlagCount f.issueId (fun i hi => h i hi)

theorem invHide_updateIssueStatus {s : State} (id status changedBy : String)
    (notes : Option String) (now : Nat) (h : InvHide s) :
    InvHide (updateIssueStatus s id status changedBy notes now).2 := by
  unfold updateIssueStatus
  split
  · exact h
  · split
    · exact invHide_updWhere (fun i => ⟨rfl, rfl⟩) h
    · intro i' hi' hfc
      simp only [issues_createStatusLog] at hi'
      exact @invHide_updWhere s (fun i => i.id == id)
        (fun i => { i with status := some status, updatedAt := now })
        (fun i => ⟨rfl, rfl⟩) h i' hi' hfc

theorem invHide_createIssueRoute {s : State} (userId : String) (req : CreateRequest)
    (photos : List String) (anon : Bool) (newId : String) (now : Nat) (h : InvHide s) :
    InvHide (createIssueRoute s userId req photos anon newId now).2.2 := by
  unfold createIssueRoute
  split
  · exact h
  · intro i' hi' hfc
    simp only [issues_createStatusLog] at hi'
    rcases List.mem_append.1 hi' with hmem | hmem
    · exact h i' hmem hfc
    · rw [List.mem_singleton.1 hmem] at hfc
      simp at hfc

/-- C1, part 1: every request preserves the auto-hide invariant. -/
theorem invHide_applyOp (s : State) (op : Op) (h : InvHide s) : InvHide (applyOp s op) := by
  cases op with
  | create userId req photos anon newId now =>
      exact invHide_createIssueRoute userId req photos anon newId now h
  | flag issueId userId reason =>
      simp only [applyOp, flagIssueRoute]
      split
      · exact h
      · exact invHide_flagIssue _ h
  | vote issueId userId =>
      simp only [applyOp, voteIssueRoute]
      split
      · exact h
      · exact invHide_updWhere (fun i => ⟨rfl, rfl⟩) h
  | setStatus userId issueId status notes now =>
      simp only [applyOp, updateStatusRoute]
      split
      · exact invHide_updateIssueStatus issueId status userId notes now h
      · exact h
  | hide userId issueId =>
      simp only [applyOp, hideIssueRoute]
      split
      · intro i' hi' hfc
        obtain ⟨i, hi, rfl⟩ := mem_updWhere hi'
        by_cases hc : (i.id == issueId) = true
        · rw [if_pos hc]
        · rw [if_neg hc] at hfc ⊢
          exact h i hi hfc
      · exact h
  | ban userId targetId =>
      simp only [applyOp, banUserRoute]
      split
      · exact fun i hi => h i hi
      · exact h
  | unban userId targetId =>
      simp only [applyOp, unbanUserRoute]
      split
      · exact fun i hi => h i hi
      · exact h

theorem hiddenOf_updWhere {s : State} {cond : Issue → Bool} {f : Issue → Issue}
    (hf : ∀ i, (f i).id = i.id)
    (hmono : ∀ i, i.isHidden = true → (f i).isHidden = true)
    (id : String) (h : hiddenOf s id = some true) :
    hiddenOf { s with issues := updWhere s.issues cond f } id = some true := by
  unfold hiddenOf getIssue at h ⊢
  rw [show ({ s with issues := updWhere s.issues cond f } : State).issues = updWhere s.issues cond f from rfl,
    find?_id_updWhere s.issues cond f hf id]
  cases hg : s.issues.find? (fun i => i.id == id) with
  | none => rw [hg] at h; simp at h
  | some i =>
    rw [hg] at h
    simp only [Option.map_some'] at h ⊢
    by_cases hc : cond i = true
    · rw [if_pos hc]
      exact congrArg some (hmono i (by injection h))
    · rw [if_neg hc]
      exact h

theorem hiddenOf_append {s : State} (more : List Issue) (id : String)
    (h : hiddenOf s id = some true) :
    hiddenOf { s with issues := s.issues ++ more } id = some true := by
  unfold hiddenOf getIssue at h ⊢
  rw [show ({ s with issues := s.issues ++ more } : State).issues = s.issues ++ more from rfl,
    List.find?_append]
  cases hg : s.issues.find? (fun i => i.id == id) with
  | none => rw [hg] at h; simp at h
  | some i => rw [hg] at h; simpa using h

theorem hiddenOf_setStatusRows {s : State} (issueId status : String) (now : Nat)
    (id : String) (h : hiddenOf s id = some true) :
    hiddenOf (setStatusRows s issueId status now) id = some true := by
  unfold setStatusRows
  apply hiddenOf_updWhere
  · exact fun i => rfl
  · exact fun i hh => hh
  · exact h

theorem hiddenOf_incrementIssueFlagCount {s : State} (issueId id : String)
    (h : hiddenOf s id = some true) :
    hiddenOf (incrementIssueFlagCount s issueId) id = some true := by
  unfold incrementIssueFlagCount
  apply hiddenOf_updWhere
  · exact fun i => rfl
  · exact fun i hh => rfl
  · apply hiddenOf_updWhere
    · exact fun i => rfl
    · exact fun i hh => hh
    · exact h

theorem hiddenOf_updateIssueStatus {s : State} (issueId status changedBy : String)
    (notes : Option String) (now : Nat) (id : String) (h : hiddenOf s id = some true) :
    hiddenOf (updateIssueStatus s issueId status changedBy notes now).2 id = some true := by
  unfold updateIssueStatus
  split
  · exact h
  · split
    · exact hiddenOf_setStatusRows issueId status now id h
    · exact hiddenOf_setStatusRows issueId status now id h

/-- C1, part 2: no request ever turns `is_hidden` off. -/
theorem hiddenOf_mono_applyOp (s : State) (op : Op) (id : String)
    (h : hiddenOf s id = some true) : hiddenOf (applyOp s op) id = some true := by
  cases op with
  | create userId req photos anon newId now =>
      simp only [applyOp, createIssueRoute]
      split
      · exact h
      · exact hiddenOf_append _ id h
  | flag issueId userId reason =>
      simp only [applyOp, flagIssueRoute]
      split
      · exact h
      · exact hiddenOf_incrementIssueFlagCount issueId id h
  | vote issueId userId =>
      simp only [applyOp, voteIssueRoute]
      split
      · exact h
      · apply hiddenOf_updWhere
        · exact fun i => rfl
        · exact fun i hh => hh
        · exact h
  | setStatus userId issueId status notes now =>
      simp only [applyOp, updateStatusRoute]
      split
      · exact hiddenOf_updateIssueStatus issueId status userId notes now id h
      · exact h
  | hide userId issueId =>
      simp only [applyOp, hideIssueRoute]
      split
      · apply hiddenOf_updWhere
        · exact fun i => rfl
        · exact fun i hh => rfl
        · exact h
      · exact h
  | ban userId targetId =>
      simp only [applyOp, banUserRoute]
      split
      · exact h
      · exact h
  | unban userId targetId =>
      simp only [applyOp, unbanUserRoute]
      split
      · exact h
      · exact h

/-- A fresh issue for the five-flags scenario: no flags yet, not hidden. -/
def c1Issue : Issue :=
  { id := "i1", title := "pothole", description := "d", category := "roads",
    status := some "reported", latitude := 0, longitude := 0, address := none,
    photos := [], reporterId := some "u0", isAnonymous := false, isHidden := false,
    flagCount := 0, reportCount := 1, createdAt := 0, updatedAt := 0 }

/-- A store holding exactly the fresh issue. -/
def c1State : State :=
  { users := [], issues := [c1Issue], flags := [], votes := [], logs := [] }

/-- An already-hidden issue at the flag threshold, for the witness. -/
def c1HiddenState : State :=
  { users := [], issues := [{ c1Issue with isHidden := true, flagCount := 5 }],
    flags := [], votes := [], logs := [] }

/-- Claim C1: for every issue, whenever `flagCount` reaches 5 or more via
the flag operation, `isHidden` becomes true (the invariant
`5 ≤ flagCount → isHidden` is preserved by every request), `isHidden`
is never automatically set back to false by any operation, and five
distinct users flagging a fresh issue hide it after the fifth flag and
not before. -/
theorem flag_threshold_auto_hide :
    (∀ s op, InvHide s → InvHide (applyOp s op)) ∧
    (∀ s op id, hiddenOf s id = some true → hiddenOf (applyOp s op) id = some true) ∧
    (let s₁ := applyOp c1State (.flag "i1" "u1" none)
     let s₂ := applyOp s₁ (.flag "i1" "u2" none)
     let s₃ := applyOp s₂ (.flag "i1" "u3" none)
     let s₄ := applyOp s₃ (.flag "i1" "u4" none)
     let s₅ := applyOp s₄ (.flag "i1" "u5" none)
     hiddenOf s₁ "i1" = some false ∧ hiddenOf s₂ "i1" = some false ∧
       hiddenOf s₃ "i1" = some false ∧ hiddenOf s₄ "i1" = some false ∧
       hiddenOf s₅ "i1" = some true) :=
  ⟨invHide_applyOp, hiddenOf_mono_applyOp, by decide⟩

/-- Witness for C1 at a concrete store: the invariant and the
hidden-monotonicity hypotheses hold for a hidden issue at the
threshold, and are carried through a vote request. -/
theorem flag_threshold_auto_hide_witness :
    InvHide (applyOp c1HiddenState (.vote "i1" "u9")) ∧
    hiddenOf (applyOp c1HiddenState (.vote "i1" "u9")) "i1" = some true :=
  ⟨flag_threshold_auto_hide.1 c1HiddenState (.vote "i1" "u9") (by unfold InvHide; decide),
   flag_threshold_auto_hide.2.1 c1HiddenState (.vote "i1" "u9") "i1" (by decide)⟩

/-! ## Duplicate flags and votes (claim C3) -/

@[simp] theorem flags_incrementIssueFlagCount (s : State) (id : String) :
    (incrementIssueFlagCount s id).flags = s.flags := rfl

@[simp] theorem votes_incrementIssueReportCount (s : State) (id : String) :
    (incrementIssueReportCount s id).votes = s.votes := rfl

@[simp] theorem flags_flagIssue (s : State) (f : Flag) :
    (flagIssue s f).flags = s.flags ++ [f] := rfl

@[simp] theorem votes_voteForIssue (s : State) (v : Vote) :
    (voteForIssue s v).votes = s.votes ++ [v] := rfl

/-- At most one flag row per (issue, user) pair. -/
def FlagsUnique (s : State) : Prop :=
  s.flags.Pairwise (fun f g => ¬(f.issueId = g.issueId ∧ f.flaggerId = g.flaggerId))

/-- At most one vote row per (issue, user) pair. -/
def VotesUnique (s : State) : Prop :=
  s.votes.Pairwise (fun v w => ¬(v.issueId = w.issueId ∧ v.voterId = w.voterId))

/-- Claim C3: a second flag or vote attempt by the same user for the same
issue answers 400 and leaves the state — rows and counters — exactly as
it was; and the flag/vote routes preserve per-(issue, user) uniqueness
of the flag and vote tables. -/
theorem flag_vote_conflict :
    (∀ s issueId userId reason,
      (∃ f ∈ s.flags, f.issueId = issueId ∧ f.flaggerId = userId) →
      flagIssueRoute s issueId userId reason = (400, s)) ∧
    (∀ s issueId userId,
      (∃ v ∈ s.votes, v.issueId = issueId ∧ v.voterId = userId) →
      voteIssueRoute s issueId userId = (400, s)) ∧
    (∀ s issueId userId reason, FlagsUnique s →
      FlagsUnique (flagIssueRoute s issueId userId reason).2) ∧
    (∀ s issueId userId, VotesUnique s →
      VotesUnique (voteIssueRoute s issueId userId).2) := by
  refine ⟨?_, ?_, ?_, ?_⟩
  · rintro s issueId userId reason ⟨f, hf, hfi, hfu⟩
    unfold flagIssueRoute
    split
    · rfl
    · rename_i hnone
      unfold getUserFlaggedIssue at hnone
      have := List.find?_eq_none.1 hnone f hf
      simp [hfi, hfu] at this
  · rintro s issueId userId ⟨v, hv, hvi, hvu⟩
    unfold voteIssueRoute
    split
    · rfl
    · rename_i hnone
      unfold getUserVoteForIssue at hnone
      have := List.find?_eq_none.1 hnone v hv
      simp [hvi, hvu] at this
  · intro s issueId userId reason h
    unfold flagIssueRoute
    split
    · exact h
    · rename_i hnone
      unfold getUserFlaggedIssue at hnone
      unfold FlagsUnique at h ⊢
      rw [flags_flagIssue]
      refine List.pairwise_append.2 ⟨h, List.pairwise_singleton _ _, ?_⟩
      intro f hf g hg
      rw [List.mem_singleton.1 hg]
      have := List.find?_eq_none.1 hnone f hf
      simp only [Bool.and_eq_true, beq_iff_eq, not_and] at this
      rintro ⟨h1, h2⟩
      exact this h1 h2
  · intro s issueId userId h
    unfold voteIssueRoute
    split
    · exact h
    · rename_i hnone
      unfold getUserVoteForIssue at hnone
      unfold VotesUnique at h ⊢
      rw [votes_voteForIssue]
      refine List.pairwise_append.2 ⟨h, List.pairwise_singleton _ _, ?_⟩
      intro v hv w hw
      rw [List.mem_singleton.1 hw]
      have := List.find?_eq_none.1 hnone v hv
      simp only [Bool.and_eq_true, beq_iff_eq, not_and] at this
      rintro ⟨h1, h2⟩
      exact this h1 h2

/-- A store holding one flag by `u1` and one vote by `u2` on issue `i1`. -/
def c3State : State :=
  { users := [], issues := [c1Issue],
    flags := [{ issueId := "i1", flaggerId := "u1", reason := none }],
    votes := [{ issueId := "i1", voterId := "u2" }], logs := [] }

/-- Witness for C3: the duplicate flag and the duplicate vote answer 400
without touching the store, and uniqueness survives a fresh flag. -/
theorem flag_vote_conflict_witness :
    flagIssueRoute c3State "i1" "u1" none = (400, c3State) ∧
    voteIssueRoute c3State "i1" "u2" = (400, c3State) ∧
    FlagsUnique (flagIssueRoute c3State "i1" "u3" none).2 :=
  ⟨flag_vote_conflict.1 c3State "i1" "u1" none
      ⟨{ issueId := "i1", flaggerId := "u1", reason := none }, List.mem_singleton.2 rfl, rfl, rfl⟩,
   flag_vote_conflict.2.1 c3State "i1" "u2"
      ⟨{ issueId := "i1", voterId := "u2" }, List.mem_singleton.2 rfl, rfl, rfl⟩,
   flag_vote_conflict.2.2.1 c3State "i1" "u3" none
      (List.pairwise_singleton _ _)⟩

/-! ## Status updates (claims C4 and C6) -/

@[simp] theorem getIssue_createStatusLog (s : State) (l : StatusLog) (id : String) :
    getIssue (createStatusLog s l) id = getIssue s id := rfl

theorem getIssue_setStatusRows {s : State} {id : String} {i : Issue} (status : String) (now : Nat)
    (h : getIssue s id = some i) :
    getIssue (setStatusRows s id status now) id =
      some { i with status := some status, updatedAt := now } := by
  unfold getIssue at h ⊢
  have hp := List.find?_some h
  rw [show (setStatusRows s id status now).issues =
        updWhere s.issues (fun i => i.id == id)
          (fun i => { i with status := some status, updatedAt := now }) from rfl]
  rw [find?_id_updWhere s.issues (fun i => i.id == id)
      (fun i => { i with status := some status, updatedAt := now }) (fun i => rfl) id, h]
  rw [Option.map_some', if_pos hp]

/-- On an existing issue, `updateIssueStatus` returns the updated row and
the state with the rewritten row and exactly one appended log entry. -/
theorem updateIssueStatus_spec (s : State) (id status changedBy : String)
    (notes : Option String) (now : Nat) (i : Issue) (h : getIssue s id = some i) :
    updateIssueStatus s id status changedBy notes now =
      (some { i with status := some status, updatedAt := now },
       createStatusLog (setStatusRows s id status now)
         { issueId := id, oldStatus := i.status, newStatus := status,
           changedBy := changedBy, notes := notes }) := by
  unfold updateIssueStatus
  rw [h, getIssue_setStatusRows status now h]

/-- Claim C4: for every existing issue, `setStatus` appends exactly one
status-log entry whose `oldStatus` is the issue's status immediately
prior to the change and whose `newStatus` is the requested status, and
sets the issue's status to the requested value. -/
theorem setStatus_appends_one_log (s : State) (id status changedBy : String)
    (notes : Option String) (now : Nat) (i : Issue) (h : getIssue s id = some i) :
    (updateIssueStatus s id status changedBy notes now).2.logs =
      s.logs ++ [{ issueId := id, oldStatus := i.status, newStatus := status,
                   changedBy := changedBy, notes := notes }] ∧
    (getIssue (updateIssueStatus s id status changedBy notes now).2 id).map Issue.status =
      some (some status) ∧
    (updateIssueStatus s id status changedBy notes now).1 =
      some { i with status := some status, updatedAt := now } := by
  rw [updateIssueStatus_spec s id status changedBy notes now i h]
  refine ⟨rfl, ?_, rfl⟩
  rw [show ((some { i with status := some status, updatedAt := now },
       createStatusLog (setStatusRows s id status now)
         { issueId := id, oldStatus := i.status, newStatus := status,
           changedBy := changedBy, notes := notes }) : Option Issue × State).2 =
      createStatusLog (setStatusRows s id status now)
         { issueId := id, oldStatus := i.status, newStatus := status,
           changedBy := changedBy, notes := notes } from rfl]
  rw [getIssue_createStatusLog, getIssue_setStatusRows status now h]
  rfl

/-- Witness for C4 on the one-issue store. -/
theorem setStatus_appends_one_log_witness :
    (updateIssueStatus c1State "i1" "in_progress" "a1" none 7).2.logs =
      c1State.logs ++ [{ issueId := "i1", oldStatus := c1Issue.status,
                         newStatus := "in_progress", changedBy := "a1", notes := none }] ∧
    (getIssue (updateIssueStatus c1State "i1" "in_progress" "a1" none 7).2 "i1").map Issue.status =
      some (some "in_progress") ∧
    (updateIssueStatus c1State "i1" "in_progress" "a1" none 7).1 =
      some { c1Issue with status := some "in_progress", updatedAt := 7 } :=
  setStatus_appends_one_log c1State "i1" "in_progress" "a1" none 7 c1Issue rfl

/-- Claim C6: the status lifecycle is permissive — for every existing
issue, every current status and every requested status string, the
admin status route succeeds with 200 and records the requested value;
there is no transition-validity check. -/
theorem status_lifecycle_permissive (s : State) (userId issueId status : String)
    (notes : Option String) (now : Nat) (i : Issue) (u : User)
    (hu : getUser s userId = some u) (ha : u.isAdmin = true)
    (hi : getIssue s issueId = some i) :
    updateStatusRoute s userId issueId status notes now =
      (200, (updateIssueStatus s issueId status userId notes now).2) ∧
    (getIssue (updateStatusRoute s userId issueId status notes now).2 issueId).map Issue.status =
      some (some status) := by
  have hspec := updateIssueStatus_spec s issueId status userId notes now i hi
  unfold updateStatusRoute
  rw [hu]
  simp only [Option.map_some', Option.getD_some, ha, if_true]
  rw [hspec]
  refine ⟨rfl, ?_⟩
  rw [show ((some { i with status := some status, updatedAt := now },
       createStatusLog (setStatusRows s issueId status now)
         { issueId := issueId, oldStatus := i.status, newStatus := status,
           changedBy := userId, notes := notes }) : Option Issue × State).2 =
      createStatusLog (setStatusRows s issueId status now)
         { issueId := issueId, oldStatus := i.status, newStatus := status,
           changedBy := userId, notes := notes } from rfl]
  rw [getIssue_createStatusLog, getIssue_setStatusRows status now hi]
  rfl

/-- A store with an admin and a resolved issue, for the C6 witness. -/
def c6State : State :=
  { users := [{ id := "a1", isAdmin := true, isBanned := false }],
    issues := [{ c1Issue with status := some "resolved" }],
    flags := [], votes := [], logs := [] }

/-- Witness for C6: an admin moves a `resolved` issue back to
`reported` — `resolved` is not terminal. -/
theorem status_lifecycle_permissive_witness :
    updateStatusRoute c6State "a1" "i1" "reported" none 9 =
      (200, (updateIssueStatus c6State "i1" "reported" "a1" none 9).2) ∧
    (getIssue (updateStatusRoute c6State "a1" "i1" "reported" none 9).2 "i1").map Issue.status =
      some (some "reported") :=
  status_lifecycle_permissive c6State "a1" "i1" "reported" none 9
    { c1Issue with status := some "resolved" }
    { id := "a1", isAdmin := true, isBanned := false } rfl rfl rfl

/-! ## Voting (claim C7) and hiding (claim C10) -/

theorem find?_updWhere_ne (rows : List Issue) (cond : Issue → Bool) (f : Issue → Issue)
    (hf : ∀ i, (f i).id = i.id) (id j : String) (hne : j ≠ id)
    (hcond : ∀ i, cond i = true → i.id = id) :
    (updWhere rows cond f).find? (fun i => i.id == j) = rows.find? (fun i => i.id == j) := by
  rw [find?_id_updWhere rows cond f hf j]
  cases hg : rows.find? (fun i => i.id == j) with
  | none => rfl
  | some x =>
    have hxj : x.id = j := by simpa using List.find?_some hg
    by_cases hcx : cond x = true
    · exact absurd (hxj ▸ hcond x hcx) hne
    · simp [hcx]

theorem getIssue_incrementIssueReportCount {s : State} {id : String} {i : Issue}
    (h : getIssue s id = some i) :
    getIssue (incrementIssueReportCount s id) id =
      some { i with reportCount := i.reportCount + 1 } := by
  unfold getIssue at h ⊢
  have hp := List.find?_some h
  rw [show (incrementIssueReportCount s id).issues =
        updWhere s.issues (fun i => i.id == id)
          (fun i => { i with reportCount := i.reportCount + 1 }) from rfl]
  rw [find?_id_updWhere s.issues (fun i => i.id == id)
      (fun i => { i with reportCount := i.reportCount + 1 }) (fun i => rfl) id, h]
  rw [Option.map_some', if_pos hp]

/-- Claim C7: for a (issue, user) pair with no existing vote, the vote
route answers 201, inserts exactly one vote row, increments the issue's
`reportCount` by exactly 1 leaving its other fields unchanged, and
leaves every other issue and every other table unchanged. -/
theorem vote_increments_reportCount (s : State) (issueId userId : String) (i : Issue)
    (hi : getIssue s issueId = some i)
    (hv : getUserVoteForIssue s issueId userId = none) :
    (voteIssueRoute s issueId userId).1 = 201 ∧
    (voteIssueRoute s issueId userId).2.votes =
      s.votes ++ [{ issueId := issueId, voterId := userId }] ∧
    getIssue (voteIssueRoute s issueId userId).2 issueId =
      some { i with reportCount := i.reportCount + 1 } ∧
    (∀ j, j ≠ issueId → getIssue (voteIssueRoute s issueId userId).2 j = getIssue s j) ∧
    (voteIssueRoute s issueId userId).2.flags = s.flags ∧
    (voteIssueRoute s issueId userId).2.logs = s.logs ∧
    (voteIssueRoute s issueId userId).2.users = s.users := by
  unfold voteIssueRoute
  rw [hv]
  refine ⟨rfl, rfl, ?_, ?_, rfl, rfl, rfl⟩
  · exact getIssue_incrementIssueReportCount hi
  · intro j hj
    show (updWhere s.issues (fun i => i.id == issueId)
        (fun i => { i with reportCount := i.reportCount + 1 })).find? (fun i => i.id == j) =
      s.issues.find? (fun i => i.id == j)
    exact find?_updWhere_ne s.issues (fun i => i.id == issueId)
      (fun i => { i with reportCount := i.reportCount + 1 }) (fun i => rfl) issueId j hj
      (fun i h => by simpa using h)

/-- Witness for C7: a fresh vote on the one-issue store. -/
theorem vote_increments_reportCount_witness :
    getIssue (voteIssueRoute c1State "i1" "u7").2 "i1" =
      some { c1Issue with reportCount := c1Issue.reportCount + 1 } ∧
    (voteIssueRoute c1State "i1" "u7").2.votes =
      c1State.votes ++ [{ issueId := "i1", voterId := "u7" }] :=
  ⟨(vote_increments_reportCount c1State "i1" "u7" c1Issue rfl rfl).2.2.1,
   (vote_increments_reportCount c1State "i1" "u7" c1Issue rfl rfl).2.1⟩

/-- Claim C10: `hideIssue` only sets `isHidden` of the addressed issue —
every other field of that issue (including `updatedAt`), every other
issue, and the other tables are untouched — and it is idempotent. -/
theorem hide_frame :
    (∀ s id, (hideIssue s id).flags = s.flags ∧ (hideIssue s id).votes = s.votes ∧
       (hideIssue s id).logs = s.logs ∧ (hideIssue s id).users = s.users) ∧
    (∀ s id i, getIssue s id = some i →
       getIssue (hideIssue s id) id = some { i with isHidden := true }) ∧
    (∀ s id j, j ≠ id → getIssue (hideIssue s id) j = getIssue s j) ∧
    (∀ s id, hideIssue (hideIssue s id) id = hideIssue s id) := by
  refine ⟨fun s id => ⟨rfl, rfl, rfl, rfl⟩, ?_, ?_, ?_⟩
  · intro s id i h
    unfold getIssue at h ⊢
    have hp := List.find?_some h
    rw [show (hideIssue s id).issues =
          updWhere s.issues (fun i => i.id == id) (fun i => { i with isHidden := true }) from rfl]
    rw [find?_id_updWhere s.issues (fun i => i.id == id)
        (fun i => { i with isHidden := true }) (fun i => rfl) id, h]
    rw [Option.map_some', if_pos hp]
  · intro s id j hj
    unfold getIssue
    rw [show (hideIssue s id).issues =
          updWhere s.issues (fun i => i.id == id) (fun i => { i with isHidden := true }) from rfl]
    exact find?_updWhere_ne s.issues (fun i => i.id == id)
      (fun i => { i with isHidden := true }) (fun i => rfl) id j hj
      (fun i h => by simpa using h)
  · intro s id
    have hidem : updWhere (updWhere s.issues (fun i => i.id == id)
        (fun i => { i with isHidden := true })) (fun i => i.id == id)
        (fun i => { i with isHidden := true }) =
        updWhere s.issues (fun i => i.id == id) (fun i => { i with isHidden := true }) := by
      unfold updWhere
      rw [List.map_map]
      apply List.map_congr_left
      intro i _
      by_cases hc : (i.id == id) = true <;> simp [Function.comp, hc]
    unfold hideIssue
    rw [show ({ s with issues := (updWhere s.issues (fun i => i.id == id)
          (fun i => { i with isHidden := true })) } : State).issues =
        updWhere s.issues (fun i => i.id == id) (fun i => { i with isHidden := true }) from rfl]
    rw [hidem]

/-- Witness for C10: hiding the fresh issue flips only `isHidden`, and
an unrelated id is untouched. -/
theorem hide_frame_witness :
    getIssue (hideIssue c1State "i1") "i1" = some { c1Issue with isHidden := true } ∧
    getIssue (hideIssue c1State "i1") "i2" = getIssue c1State "i2" :=
  ⟨hide_frame.2.1 c1State "i1" c1Issue rfl,
   hide_frame.2.2.1 c1State "i1" "i2" (by decide)⟩

/-! ## Flagged-issue listing (claim C8) -/

/-- Claim C8: `getFlaggedIssues` returns exactly the issues with
`flagCount ≥ 1`, ordered by `flagCount` descending, and hidden issues
are included (hidden only affects the public proximity query). -/
theorem flagged_issues_spec (s : State) :
    (∀ i, i ∈ getFlaggedIssues s ↔ i ∈ s.issues ∧ 1 ≤ i.flagCount) ∧
    (getFlaggedIssues s).Pairwise (fun a b => b.flagCount ≤ a.flagCount) ∧
    (∀ i ∈ s.issues, i.isHidden = true → 1 ≤ i.flagCount → i ∈ getFlaggedIssues s) := by
  have hmem : ∀ i, i ∈ getFlaggedIssues s ↔ i ∈ s.issues ∧ 1 ≤ i.flagCount := by
    intro i
    unfold getFlaggedIssues
    rw [List.mem_mergeSort, List.mem_filter]
    simp
  refine ⟨hmem, ?_, fun i hi _ hfc => (hmem i).2 ⟨hi, hfc⟩⟩
  unfold getFlaggedIssues
  have h := @List.sorted_mergeSort Issue
      (fun a b => decide (b.flagCount ≤ a.flagCount))
      (fun a b c hab hbc => by
        simp only [decide_eq_true_eq] at hab hbc ⊢
        exact le_trans hbc hab)
      (fun a b => by
        simp only [Bool.or_eq_true, decide_eq_true_eq]
        exact le_total b.flagCount a.flagCount)
      (s.issues.filter (fun i => decide (1 ≤ i.flagCount)))
  exact h.imp (fun hab => by simpa using hab)

/-- A store with a hidden flagged issue and a visible flagged issue. -/
def c8State : State :=
  { users := [],
    issues := [{ c1Issue with id := "h1", flagCount := 2, isHidden := true },
               { c1Issue with id := "h2", flagCount := 7 }],
    flags := [], votes := [], logs := [] }

/-- Witness for C8: the hidden issue with two flags is listed. -/
theorem flagged_issues_spec_witness :
    { c1Issue with id := "h1", flagCount := 2, isHidden := true } ∈ getFlaggedIssues c8State :=
  (flagged_issues_spec c8State).2.2 _ (by decide) rfl (by decide)

/-! ## Analytics (claim C9) -/

/-- The three-roads, two-water scenario store. -/
def c9State : State :=
  { users := [],
    issues := [{ c1Issue with id := "r1", category := "roads" },
               { c1Issue with id := "r2", category := "roads" },
               { c1Issue with id := "r3", category := "roads" },
               { c1Issue with id := "w1", category := "water" },
               { c1Issue with id := "w2", category := "water" }],
    flags := [], votes := [], logs := [] }

/-- A store with one non-hidden issue whose status is the empty string. -/
def c9EmptyStatusState : State :=
  { users := [], issues := [{ c1Issue with id := "e1", status := some "" }],
    flags := [], votes := [], logs := [] }

/-- Counterexample to C9 as stated: the store holds one non-hidden issue
whose status is the empty string, yet `issuesByStatus` is empty — the JS
truthiness check `if (stat.status)` drops the empty-string group, so not
every status of a non-hidden issue is mapped to its count. -/
theorem analytics_empty_status_cex :
    ({ c1Issue with id := "e1", status := some "" }) ∈ c9EmptyStatusState.issues ∧
    ({ c1Issue with id := "e1", status := some "" } : Issue).isHidden = false ∧
    ({ c1Issue with id := "e1", status := some "" } : Issue).status = some "" ∧
    (getIssueAnalytics c9EmptyStatusState).issuesByStatus = [] :=
  ⟨by decide, rfl, rfl, by decide⟩

/-- Claim C9, amended: analytics counts only non-hidden issues:
`totalIssues` is their number, `issuesByCategory` maps exactly the
categories of non-hidden issues to their counts, `issuesByStatus` maps
exactly the non-null, non-empty statuses of non-hidden issues to their
counts (NULL and empty-string statuses are dropped by the truthiness
check), and the 3-roads/2-water scenario yields
`{roads: 3, water: 2}`. -/
theorem analytics_spec (s : State) :
    (getIssueAnalytics s).totalIssues =
      (s.issues.filter (fun i => i.isHidden == false)).length ∧
    (∀ c n, (c, n) ∈ (getIssueAnalytics s).issuesByCategory ↔
      ((∃ i ∈ s.issues.filter (fun i => i.isHidden == false), i.category = c) ∧
       n = ((s.issues.filter (fun i => i.isHidden == false)).filter
              (fun i => i.category == c)).length)) ∧
    (∀ st n, (st, n) ∈ (getIssueAnalytics s).issuesByStatus ↔
      (st ≠ "" ∧
       (∃ i ∈ s.issues.filter (fun i => i.isHidden == false), i.status = some st) ∧
       n = ((s.issues.filter (fun i => i.isHidden == false)).filter
              (fun i => i.status == some st)).length)) ∧
    (getIssueAnalytics c9State).issuesByCategory = [("roads", 3), ("water", 2)] := by
  refine ⟨rfl, ?_, ?_, by decide⟩
  · intro c n
    simp only [getIssueAnalytics, List.mem_map, List.mem_dedup]
    constructor
    · rintro ⟨a, ⟨i, hi, hia⟩, heq⟩
      injection heq with h1 h2
      subst h1
      subst h2
      exact ⟨⟨i, hi, hia⟩, rfl⟩
    · rintro ⟨⟨i, hi, hic⟩, rfl⟩
      exact ⟨c, ⟨i, hi, hic⟩, rfl⟩
  · intro st n
    simp only [getIssueAnalytics, List.mem_map, List.mem_filter, List.mem_dedup,
      List.mem_filterMap]
    constructor
    · rintro ⟨a, ⟨⟨i, hi, hia⟩, hane⟩, heq⟩
      injection heq with h1 h2
      subst h1
      subst h2
      refine ⟨?_, ⟨i, hi, hia⟩, rfl⟩
      simpa using hane
    · rintro ⟨hne, ⟨i, hi, hist⟩, rfl⟩
      exact ⟨st, ⟨⟨i, hi, hist⟩, by simpa using hne⟩, rfl⟩

/-- Witness for C9: instantiating the amended statement on the scenario
store — the "roads" entry is exactly (roads, 3). -/
theorem analytics_spec_witness :
    ("roads", 3) ∈ (getIssueAnalytics c9State).issuesByCategory :=
  ((analytics_spec c9State).2.1 "roads" 3).2
    ⟨⟨{ c1Issue with id := "r1", category := "roads" }, by decide, rfl⟩, by decide⟩

/-! ## Issue creation (claim C5) -/

/-- The empty store. -/
def emptyState : State := { users := [], issues := [], flags := [], votes := [], logs := [] }

/-- A creation request that supplies an explicit status. -/
def c5Req : CreateRequest :=
  { title := "t", description := "d", category := "roads",
    status := some "resolved", latitude := 0, longitude := 0, address := none }

/-- Counterexample to C5 as stated: `insertIssueSchema` omits
`flagCount`, `reportCount` and `isHidden` from the request, but not
`status`, so an accepted request carrying `status = "resolved"` is
created with that status rather than the default `"reported"`. -/
theorem create_status_passthrough_cex :
    (createIssueRoute emptyState "u1" c5Req [] false "i9" 3).1 = 201 ∧
    ((createIssueRoute emptyState "u1" c5Req [] false "i9" 3).2.1).map Issue.status =
      some (some "resolved") :=
  ⟨rfl, rfl⟩

/-- Claim C5, amended: every accepted creation request answers 201 with
an issue having `flagCount = 0`, `reportCount = 1`, `isHidden = false`
— those columns cannot be supplied by the client — and appends exactly
one initial status-log entry with previous status null and new status
"reported"; the created issue's status is "reported" whenever the
request does not supply a status (a supplied status passes through). -/
theorem create_issue_defaults (s : State) (userId : String) (req : CreateRequest)
    (photos : List String) (anon : Bool) (newId : String) (now : Nat)
    (hban : ((getUser s userId).map User.isBanned).getD false = false) :
    (createIssueRoute s userId req photos anon newId now).1 = 201 ∧
    (∃ issue, (createIssueRoute s userId req photos anon newId now).2.1 = some issue ∧
       issue.flagCount = 0 ∧ issue.reportCount = 1 ∧ issue.isHidden = false ∧
       (req.status = none → issue.status = some "reported")) ∧
    (createIssueRoute s userId req photos anon newId now).2.2.logs =
      s.logs ++ [{ issueId := newId, oldStatus := none, newStatus := "reported",
                   changedBy := userId, notes := some "Issue reported" }] := by
  unfold createIssueRoute
  rw [if_neg (by simp [hban])]
  exact ⟨rfl, ⟨_, rfl, rfl, rfl, rfl, fun h => by rw [h]; rfl⟩, rfl⟩

/-- A creation request with no status supplied. -/
def c5DefaultReq : CreateRequest :=
  { title := "t", description := "d", category := "roads",
    status := none, latitude := 0, longitude := 0, address := none }

/-- Witness for C5 (amended) on the empty store. -/
theorem create_issue_defaults_witness :
    (createIssueRoute emptyState "u2" c5DefaultReq [] true "i10" 4).1 = 201 ∧
    (∃ issue, (createIssueRoute emptyState "u2" c5DefaultReq [] true "i10" 4).2.1 = some issue ∧
       issue.flagCount = 0 ∧ issue.reportCount = 1 ∧ issue.isHidden = false ∧
       (c5DefaultReq.status = none → issue.status = some "reported")) ∧
    (createIssueRoute emptyState "u2" c5DefaultReq [] true "i10" 4).2.2.logs =
      emptyState.logs ++ [{ issueId := "i10", oldStatus := none, newStatus := "reported",
                            changedBy := "u2", notes := some "Issue reported" }] :=
  create_issue_defaults emptyState "u2" c5DefaultReq [] true "i10" 4 rfl

/-! ## The proximity query (claim C2) -/

/-- Unpacking the row filter of the proximity query. -/
theorem nearFilter_eq_true {latitude longitude radiusKm : ℚ}
    {category status : Option String} {i : Issue}
    (h : nearFilter latitude longitude radiusKm category status i = true) :
    i.isHidden = false ∧ distanceKm latitude longitude i ≤ (radiusKm : ℝ) ∧
    (∀ c, category = some c → i.category = c) ∧
    (∀ st, status = some st → i.status = some st) := by
  unfold nearFilter at h
  simp only [Bool.and_eq_true, decide_eq_true_eq, beq_iff_eq] at h
  obtain ⟨⟨⟨hdist, hhid⟩, hcat⟩, hstat⟩ := h
  refine ⟨hhid, hdist, ?_, ?_⟩
  · intro c hc
    rw [hc] at hcat
    simpa using hcat
  · intro st hst
    rw [hst] at hstat
    simpa using hstat

/-- Claim C2: the proximity query returns only non-hidden issues of the
store whose spherical-law-of-cosines distance (R = 6371 km, angles in
radians) from the origin is at most the radius and which match the
optional category and status filters; the result is ordered by creation
time descending; and it is the offset/limit slice of the sorted
filtered rows — pagination happens after filtering. -/
theorem near_query_spec (s : State) (lat lng radius : ℚ) (category status : Option String)
    (lim off : Nat) :
    (∀ i ∈ getIssuesNearLocation s lat lng radius category status lim off,
       i ∈ s.issues ∧ i.isHidden = false ∧ distanceKm lat lng i ≤ (radius : ℝ) ∧
       (∀ c, category = some c → i.category = c) ∧
       (∀ st, status = some st → i.status = some st)) ∧
    (getIssuesNearLocation s lat lng radius category status lim off).Pairwise
      (fun a b => b.createdAt ≤ a.createdAt) ∧
    getIssuesNearLocation s lat lng radius category status lim off =
      (((s.issues.filter (nearFilter lat lng radius category status)).mergeSort
          (fun a b => decide (b.createdAt ≤ a.createdAt))).drop off).take lim := by
  refine ⟨?_, ?_, rfl⟩
  · intro i hi
    unfold getIssuesNearLocation at hi
    have hi' := List.mem_of_mem_drop (List.mem_of_mem_take hi)
    rw [List.mem_mergeSort, List.mem_filter] at hi'
    obtain ⟨hmem, hfil⟩ := hi'
    obtain ⟨hhid, hdist, hcat, hstat⟩ := nearFilter_eq_true hfil
    exact ⟨hmem, hhid, hdist, hcat, hstat⟩
  · unfold getIssuesNearLocation
    have hsorted := @List.sorted_mergeSort Issue
        (fun a b => decide (b.createdAt ≤ a.createdAt))
        (fun a b c hab hbc => by
          simp only [decide_eq_true_eq] at hab hbc ⊢
          exact le_trans hbc hab)
        (fun a b => by
          simp only [Bool.or_eq_true, decide_eq_true_eq]
          exact le_total b.createdAt a.createdAt)
        (s.issues.filter (nearFilter lat lng radius category status))
    have hsub : List.Sublist
        ((((s.issues.filter (nearFilter lat lng radius category status)).mergeSort
          (fun a b => decide (b.createdAt ≤ a.createdAt))).drop off).take lim)
        ((s.issues.filter (nearFilter lat lng radius category status)).mergeSort
          (fun a b => decide (b.createdAt ≤ a.createdAt))) :=
      (List.take_sublist _ _).trans (List.drop_sublist _ _)
    exact (hsorted.sublist hsub).imp (fun hab => by simpa using hab)

/-- At the origin of its own coordinates the distance expression is
`6371 * arccos 1 = 0`. -/
theorem distanceKm_c1Issue_zero : distanceKm 0 0 c1Issue = 0 := by
  have h0 : radians 0 = 0 := by simp [radians]
  have hlat : radians c1Issue.latitude = 0 := by
    rw [show c1Issue.latitude = 0 from rfl, h0]
  have hlng : radians c1Issue.longitude = 0 := by
    rw [show c1Issue.longitude = 0 from rfl, h0]
  unfold distanceKm
  rw [h0, hlat, hlng]
  simp [Real.arccos_one]

/-- The query at the issue's own location with radius 1 returns it. -/
theorem near_query_c1 :
    getIssuesNearLocation c1State 0 0 1 none none 50 0 = [c1Issue] := by
  have hfil : nearFilter 0 0 1 none none c1Issue = true := by
    unfold nearFilter
    rw [decide_eq_true (by rw [distanceKm_c1Issue_zero]; norm_num)]
    rfl
  unfold getIssuesNearLocation
  rw [show c1State.issues = [c1Issue] from rfl]
  rw [List.filter_cons_of_pos hfil]
  rw [show List.filter (nearFilter 0 0 1 none none) [] = [] from rfl]
  rw [List.mergeSort_singleton]
  rfl

/-- Witness for C2: the fresh issue at (0, 0) is returned by the query
from (0, 0) with radius 1, and the soundness conclusions hold for it. -/
theorem near_query_spec_witness :
    c1Issue ∈ getIssuesNearLocation c1State 0 0 1 none none 50 0 ∧
    c1Issue.isHidden = false ∧ distanceKm 0 0 c1Issue ≤ ((1 : ℚ) : ℝ) :=
  have hmem : c1Issue ∈ getIssuesNearLocation c1State 0 0 1 none none 50 0 := by
    rw [near_query_c1]; exact List.mem_singleton.2 rfl
  ⟨hmem,
   ((near_query_spec c1State 0 0 1 none none 50 0).1 c1Issue hmem).2.1,
   ((near_query_spec c1State 0 0 1 none none 50 0).1 c1Issue hmem).2.2.1⟩

end CivicTrack
